import Mathlib

/-!
Verification of the analytics / spreadsheet-expense service.

This file gives a shallow embedding, in Lean 4, of the query-interpretation
and aggregation pipeline of the personal-expense-tracker API:

* `app/services/analytics_service.py` — date-window resolution
  (`_parse_time_range`), routing (`_handle_period_analysis`), aggregation
  analyses (`_category_analysis`, `_total_spending_analysis`, trend and
  period analyses) and insight generation
  (`_generate_comparison_insights`, `_generate_category_comparison_insights`);
* `app/services/ai_service.py` — the analytics-query interpreter
  (`parse_analytics_query`) with its rule-based fallback
  (`_fallback_query_parsing`);
* `app/services/sheets_service.py` — row filtering and grouping
  (`get_expenses`, `get_spending_by_category`,
  `get_spending_by_time_period`, `get_total_spending`) and the raw
  row-positional operations (`update_expense`, `delete_expense`,
  `get_expense_by_row`).

Modelling conventions: Python floats are modelled as `ℚ`; Python `datetime.date`
as a `Date` structure of numerals; Python dictionaries as association lists;
Python operations that can raise are modelled in `Except String`, with
division (`pyDiv`) raising on a zero denominator exactly as Python does.
Chart rendering and the network clients are out of scope (spec §1) and are
not modelled; only the data computations around them are.
-/

/-! ### Calendar dates (Python `datetime.date`) -/

/-- Calendar date: proleptic Gregorian year, month (1..12), day (1..31). -/
structure Date where
  year : Nat
  month : Nat
  day : Nat
deriving DecidableEq, Repr

/-- Gregorian leap-year rule, as used by Python's `datetime`. -/
def isLeapYear (y : Nat) : Bool :=
  y % 4 == 0 && (y % 100 != 0 || y % 400 == 0)

/-- Number of days in month `m` of year `y`. -/
def daysInMonth (y m : Nat) : Nat :=
  if m == 2 then (if isLeapYear y then 29 else 28)
  else if m == 4 || m == 6 || m == 9 || m == 11 then 30
  else 31

/-- The previous calendar day (Python `d - timedelta(days=1)`). -/
def Date.pred (d : Date) : Date :=
  if 1 < d.day then ⟨d.year, d.month, d.day - 1⟩
  else if 1 < d.month then ⟨d.year, d.month - 1, daysInMonth d.year (d.month - 1)⟩
  else ⟨d.year - 1, 12, 31⟩

/-- Subtract `n` days (Python `d - timedelta(days=n)`). -/
def Date.subDays (d : Date) : Nat → Date
  | 0 => d
  | n + 1 => (Date.subDays d n).pred

/-- Days strictly before month `m` within a year of year `y` (for ordinals). -/
def daysBeforeMonth (y m : Nat) : Nat :=
  let base := [0, 31, 59, 90, 120, 151, 181, 212, 243, 273, 304, 334].getD (m - 1) 0
  if 2 < m && isLeapYear y then base + 1 else base

/-- Proleptic-Gregorian ordinal of a date (0001-01-01 has ordinal 1),
matching Python `date.toordinal`. -/
def Date.toOrdinal (d : Date) : Nat :=
  365 * (d.year - 1) + (d.year - 1) / 4 - (d.year - 1) / 100 + (d.year - 1) / 400
    + daysBeforeMonth d.year d.month + d.day

/-- Weekday with Monday = 0 .. Sunday = 6, matching Python `date.weekday()`
(0001-01-01 was a Monday). -/
def Date.weekday (d : Date) : Nat :=
  (d.toOrdinal - 1) % 7

/-- First day of the date's month (Python `d.replace(day=1)`). -/
def firstOfMonth (d : Date) : Date :=
  ⟨d.year, d.month, 1⟩

/-- Zero-pad a numeral to two digits. -/
def pad2 (n : Nat) : String :=
  if n < 10 then "0" ++ toString n else toString n

/-- Zero-pad a numeral to four digits. -/
def pad4 (n : Nat) : String :=
  if n < 10 then "000" ++ toString n
  else if n < 100 then "00" ++ toString n
  else if n < 1000 then "0" ++ toString n
  else toString n

/-- ISO date string `YYYY-MM-DD` (Python `date.isoformat()`). -/
def Date.iso (d : Date) : String :=
  pad4 d.year ++ "-" ++ pad2 d.month ++ "-" ++ pad2 d.day

/-! ### Substring containment (Python `sub in s`) -/

/-- Whether the character list begins with the given pattern. -/
def charsBeginWith : List Char → List Char → Bool
  | _, [] => true
  | [], _ :: _ => false
  | a :: as, b :: bs => a == b && charsBeginWith as bs

/-- Whether the pattern occurs as a contiguous run inside the character list. -/
def charsContain (s pat : List Char) : Bool :=
  match s with
  | [] => pat.isEmpty
  | _ :: rest => charsBeginWith s pat || charsContain rest pat

/-- Python's substring test `pat in s`. -/
def strContains (s pat : String) : Bool :=
  charsContain s.toList pat.toList

/-! ### Date-window resolver: `AnalyticsService._parse_time_range`
(`analytics_service.py`, lines 345-392).  The Python function tests the
lower-cased query for each phrase in order and returns an inclusive
`(start_date, end_date)` pair, `(None, None)` when no phrase matches. -/

/-- Embedding of `AnalyticsService._parse_time_range(query)` with `today`
made an explicit argument (Python reads `date.today()`). -/
def parse_time_range (query : String) (today : Date) : Option Date × Option Date :=
  if strContains query ("this month") then
    (some (firstOfMonth today), some today)
  else if strContains query ("last month") then
    if today.month == 1 then
      (some ⟨today.year - 1, 12, 1⟩, some ⟨today.year - 1, 12, 31⟩)
    else
      (some ⟨today.year, today.month - 1, 1⟩, some (Date.pred (firstOfMonth today)))
  else if strContains query ("this week") then
    (some (today.subDays today.weekday), some today)
  else if strContains query ("last week") then
    let endD := today.subDays (today.weekday + 1)
    (some (endD.subDays 6), some endD)
  else if strContains query ("this year") then
    (some ⟨today.year, 1, 1⟩, some today)
  else if strContains query ("last year") then
    (some ⟨today.year - 1, 1, 1⟩, some ⟨today.year - 1, 12, 31⟩)
  else if strContains query ("last 30 days") || strContains query ("past month") then
    (some (today.subDays 30), some today)
  else if strContains query ("last 7 days") || strContains query ("past week") then
    (some (today.subDays 7), some today)
  else (none, none)

/-- Start of the fallback "Last Month" window in
`GoogleAIService._fallback_query_parsing` (`ai_service.py`, line 270):
`(today.replace(day=1) - timedelta(days=1)).replace(day=1)`. -/
def fallbackLastMonthStart (today : Date) : Date :=
  firstOfMonth (Date.pred (firstOfMonth today))

/-- End of the fallback "Last Month" window in
`GoogleAIService._fallback_query_parsing` (`ai_service.py`, line 271):
`today.replace(day=1) - timedelta(days=1)`. -/
def fallbackLastMonthEnd (today : Date) : Date :=
  Date.pred (firstOfMonth today)

/-! ### JSON values and `json.loads`
The interpreter parses the model's reply with Python `json.loads`.  We embed
a JSON value type and a fuel-based recursive-descent reader sufficient for
the analytics-intent schema (object/array/string/integer/bool/null; string
escapes and non-integer numbers are rejected, the schema produces neither). -/

/-- JSON values. -/
inductive Json where
  | null
  | bool (b : Bool)
  | num (n : Int)
  | str (s : String)
  | arr (items : List Json)
  | obj (fields : List (String × Json))

/-- Opening-brace character. -/
def lbrace : Char := Char.ofNat 123

/-- Closing-brace character. -/
def rbrace : Char := Char.ofNat 125

/-- Drop leading JSON whitespace. -/
def jskipWs : List Char → List Char
  | [] => []
  | c :: cs =>
    if c == ' ' || c == '\n' || c == '\t' || c == '\r' then jskipWs cs else c :: cs

/-- Read the body of a JSON string after the opening quote (no escapes). -/
def jstringBody : List Char → List Char → Option (String × List Char)
  | [], _ => none
  | c :: cs, acc =>
    if c == '"' then some (String.mk acc.reverse, cs)
    else if c == '\\' then none
    else jstringBody cs (c :: acc)

/-- Read a JSON string literal. -/
def jstring : List Char → Option (String × List Char)
  | [] => none
  | c :: cs => if c == '"' then jstringBody cs [] else none

/-- Numeric value of a run of decimal digits. -/
def digitsToNat (ds : List Char) : Nat :=
  ds.foldl (fun acc c => acc * 10 + (c.toNat - 48)) 0

/-- Read a JSON integer literal (optional minus then digits). -/
def jnumber (cs : List Char) : Option (Json × List Char) :=
  let (neg, cs1) :=
    match cs with
    | c :: rest => if c == '-' then (true, rest) else (false, cs)
    | [] => (false, cs)
  let ds := cs1.takeWhile Char.isDigit
  let cs2 := cs1.dropWhile Char.isDigit
  if ds.isEmpty then none
  else
    let n : Int := digitsToNat ds
    let v := Json.num (if neg then -n else n)
    match cs2 with
    | c :: _ => if c == '.' || c == 'e' || c == 'E' then none else some (v, cs2)
    | [] => some (v, cs2)

/-- Read the members of a JSON object (after the first has been reached),
parsing member values with `pv`. -/
def jmembersWith (pv : List Char → Option (Json × List Char)) :
    Nat → List Char → List (String × Json) → Option (List (String × Json) × List Char)
  | 0, _, _ => none
  | fuel + 1, cs, acc =>
    match jstring (jskipWs cs) with
    | none => none
    | some (k, cs1) =>
      match jskipWs cs1 with
      | c :: cs2 =>
        if c == ':' then
          match pv cs2 with
          | none => none
          | some (v, cs3) =>
            match jskipWs cs3 with
            | c2 :: cs4 =>
              if c2 == ',' then jmembersWith pv fuel cs4 (acc ++ [(k, v)])
              else if c2 == rbrace then some (acc ++ [(k, v)], cs4)
              else none
            | [] => none
        else none
      | [] => none

/-- Read the items of a JSON array (after the first has been reached),
parsing item values with `pv`. -/
def jitemsWith (pv : List Char → Option (Json × List Char)) :
    Nat → List Char → List Json → Option (List Json × List Char)
  | 0, _, _ => none
  | fuel + 1, cs, acc =>
    match pv cs with
    | none => none
    | some (v, cs1) =>
      match jskipWs cs1 with
      | c :: cs2 =>
        if c == ',' then jitemsWith pv fuel cs2 (acc ++ [v])
        else if c == ']' then some (acc ++ [v], cs2)
        else none
      | [] => none

/-- Read one JSON value; `fuel` bounds the nesting depth. -/
def jvalue : Nat → List Char → Option (Json × List Char)
  | 0, _ => none
  | fuel + 1, cs =>
    match jskipWs cs with
    | [] => none
    | c :: rest =>
      if c == lbrace then
        match jskipWs rest with
        | c2 :: rest2 =>
          if c2 == rbrace then some (Json.obj [], rest2)
          else
            (jmembersWith (jvalue fuel) (rest2.length + 2) (c2 :: rest2) []).map
              (fun p => (Json.obj p.1, p.2))
        | [] => none
      else if c == '[' then
        match jskipWs rest with
        | c2 :: rest2 =>
          if c2 == ']' then some (Json.arr [], rest2)
          else
            (jitemsWith (jvalue fuel) (rest2.length + 2) (c2 :: rest2) []).map
              (fun p => (Json.arr p.1, p.2))
        | [] => none
      else if c == '"' then
        (jstring (c :: rest)).map (fun p => (Json.str p.1, p.2))
      else if charsBeginWith (c :: rest) ("null".toList) then
        some (Json.null, (c :: rest).drop 4)
      else if charsBeginWith (c :: rest) ("true".toList) then
        some (Json.bool true, (c :: rest).drop 4)
      else if charsBeginWith (c :: rest) ("false".toList) then
        some (Json.bool false, (c :: rest).drop 5)
      else jnumber (c :: rest)

/-- Embedding of Python `json.loads`: the whole input must be one JSON value
(up to surrounding whitespace), else the parse fails. -/
def jsonLoads (cs : List Char) : Option Json :=
  match jvalue (cs.length + 1) cs with
  | some (j, rest) => if (jskipWs rest).isEmpty then some j else none
  | none => none

/-- Field lookup in a JSON object (Python `d["k"]` presence). -/
def Json.getField : Json → String → Option Json
  | .obj fs, k => fs.lookup k
  | _, _ => none

/-! ### Query interpreter: `GoogleAIService.parse_analytics_query`
(`ai_service.py`, lines 84-151) and its rule-based fallback
`_fallback_query_parsing` (lines 241-274). -/

/-- JSON whitespace test for a character. -/
def isWsChar (c : Char) : Bool :=
  c == ' ' || c == '\n' || c == '\t' || c == '\r'

/-- Strip whitespace from both ends (Python `str.strip()`). -/
def trimChars (cs : List Char) : List Char :=
  ((cs.dropWhile isWsChar).reverse.dropWhile isWsChar).reverse

/-- Cleaning of the model reply (`ai_service.py`, lines 136-143): strip,
drop a leading code-fence marker and a trailing one, strip again.  Python's
`str` methods are rendered on the character list. -/
def cleanAnalyticsReply (t : String) : List Char :=
  let r := trimChars t.toList
  let r := if charsBeginWith r ("```json".toList) then r.drop 7 else r
  let r := if charsBeginWith r.reverse ("```".toList.reverse) then r.take (r.length - 3) else r
  trimChars r

/-- Embedding of `GoogleAIService._fallback_query_parsing(query)` with `today`
made explicit (Python reads `date.today()`); the returned dictionary is
encoded as a `Json` object in the declaration order of the source. -/
def fallback_query_parsing (query : String) (today : Date) : Json :=
  let ql := query.toList.map Char.toLower
  let isComp := charsContain ql ("vs".toList) || charsContain ql ("versus".toList) ||
    charsContain ql ("compare".toList) || charsContain ql ("comparison".toList)
  let timePeriods :=
    if charsContain ql ("this month".toList) && charsContain ql ("last month".toList) then
      Json.arr [
        Json.obj [("label", Json.str ("This Month")),
          ("start_date", Json.str (firstOfMonth today).iso),
          ("end_date", Json.str today.iso)],
        Json.obj [("label", Json.str ("Last Month")),
          ("start_date", Json.str (fallbackLastMonthStart today).iso),
          ("end_date", Json.str (fallbackLastMonthEnd today).iso)]]
    else
      Json.arr [Json.obj [("label", Json.str ("all time")),
        ("start_date", Json.null), ("end_date", Json.null)]]
  Json.obj [
    ("analysis_type", Json.str (if isComp then "comparison" else "category_breakdown")),
    ("comparison_type", if isComp then Json.str ("time_periods") else Json.null),
    ("time_periods", timePeriods),
    ("categories", Json.null),
    ("granularity", Json.str ("month")),
    ("specific_insights", Json.arr []),
    ("chart_type", Json.str (if isComp then "comparison_bar" else "pie")),
    ("include_category_breakdown", Json.bool true)]

/-- Embedding of `GoogleAIService.parse_analytics_query(query)`.  The external
model call is abstracted as `modelReply`: `none` when the call raises,
`some t` when it returns reply text `t`.  The Python `try` block cleans the
reply and runs `json.loads` on it; any exception (model failure or JSON parse
failure) is caught and answered with the rule-based fallback.  A reply that
parses as JSON is returned as-is, without any field validation. -/
def parse_analytics_query (modelReply : Option String) (query : String)
    (today : Date) : Json :=
  match modelReply with
  | none => fallback_query_parsing query today
  | some t =>
    match jsonLoads (cleanAnalyticsReply t) with
    | some j => j
    | none => fallback_query_parsing query today

/-! ### Row store and aggregation primitives
(`sheets_service.py`).  A stored row carries 13 columns; the aggregation
layer reads only `User ID`, `Date`, `Amount` and `Category`, so the
embedding keeps exactly those fields (the free-text columns never influence
any aggregate).  Python floats are modelled as `ℚ`; pandas dictionaries as
association lists with groupby keys in sorted order, as pandas produces. -/

/-- Python division, which raises `ZeroDivisionError` on a zero denominator. -/
def pyDiv (a b : ℚ) : Except String ℚ :=
  if b = 0 then Except.error ("division by zero") else Except.ok (a / b)

/-- One stored expense row, restricted to the aggregation-relevant columns. -/
structure ExpenseRow where
  userId : String
  date : Date
  amount : ℚ
  category : String
deriving DecidableEq, Repr

/-- Chronological comparison of calendar dates (pandas datetime `<=`). -/
def dateLeb (a b : Date) : Bool :=
  a.year < b.year ||
    (a.year == b.year && (a.month < b.month || (a.month == b.month && a.day ≤ b.day)))

/-- Lower-cased character list of a string (Python `str.lower()`). -/
def lowerChars (s : String) : List Char :=
  s.toList.map Char.toLower

/-- Embedding of `GoogleSheetsService.get_expenses` (lines 138-174): filter
stored rows by user id, then inclusive date bounds, then (optionally) by
case-insensitive category equality. -/
def get_expenses (rows : List ExpenseRow) (user_id : String)
    (start_date end_date : Option Date) (category : Option String) : List ExpenseRow :=
  let l := rows.filter (fun r => r.userId == user_id)
  let l := match start_date with
    | some s => l.filter (fun r => dateLeb s r.date)
    | none => l
  let l := match end_date with
    | some e => l.filter (fun r => dateLeb r.date e)
    | none => l
  match category with
  | some c => l.filter (fun r => lowerChars r.category == lowerChars c)
  | none => l

/-- Dictionary lookup with default (Python `d.get(k, default)`). -/
def lookupD (l : List (String × ℚ)) (k : String) (d : ℚ) : ℚ :=
  (l.lookup k).getD d

/-- Insert a key into a sorted key list. -/
def insertSortedKey (x : String) : List String → List String
  | [] => [x]
  | y :: ys => if x ≤ y then x :: y :: ys else y :: insertSortedKey x ys

/-- Sort keys ascending (pandas `groupby` emits its groups in key order). -/
def sortKeys (l : List String) : List String :=
  l.foldr insertSortedKey []

/-- Group a keyed series by key and sum the values per key
(pandas `df.groupby(k)[v].sum().to_dict()`). -/
def groupSum (l : List (String × ℚ)) : List (String × ℚ) :=
  (sortKeys (l.map (fun p => p.1)).dedup).map
    (fun k => (k, (l.filter (fun p => p.1 == k)).foldl (fun a p => a + p.2) 0))

/-- Embedding of `GoogleSheetsService.get_spending_by_category`
(lines 176-196): group the filtered rows by category and sum amounts. -/
def get_spending_by_category (rows : List ExpenseRow) (user_id : String)
    (s e : Option Date) : List (String × ℚ) :=
  let ex := get_expenses rows user_id s e none
  groupSum (ex.map (fun r => (r.category, r.amount)))

/-- Embedding of `GoogleSheetsService.get_total_spending` (lines 234-252):
sum the amounts of the filtered rows (0.0 for an empty frame). -/
def get_total_spending (rows : List ExpenseRow) (user_id : String)
    (s e : Option Date) : ℚ :=
  (get_expenses rows user_id s e none).foldl (fun a r => a + r.amount) 0

/-- Day-of-year of a date, 1-based. -/
def Date.dayOfYear (d : Date) : Nat :=
  daysBeforeMonth d.year d.month + d.day

/-- Week-of-year number with Sunday as first weekday, days before the first
Sunday in week 0 (C `strftime` directive `%U`, used by pandas). -/
def weekNumU (d : Date) : Nat :=
  ((d.dayOfYear - 1) + 7 - ((d.weekday + 1) % 7)) / 7

/-- The period-label formatter of `get_spending_by_time_period`
(lines 218-225): `%Y-%m-%d`, `%Y-W%U`, `%Y-%m` or `%Y` by granularity;
`none` for any other granularity value. -/
def periodLabeler (period : String) : Option (Date → String) :=
  if period == "day" then some Date.iso
  else if period == "week" then some (fun d => pad4 d.year ++ "-W" ++ pad2 (weekNumU d))
  else if period == "month" then some (fun d => pad4 d.year ++ "-" ++ pad2 d.month)
  else if period == "year" then some (fun d => pad4 d.year)
  else none

/-- Embedding of `GoogleSheetsService.get_spending_by_time_period`
(lines 198-232): an empty filtered frame returns the empty dictionary before
any granularity test; a recognized granularity groups by its period label;
anything else raises `ValueError`. -/
def get_spending_by_time_period (rows : List ExpenseRow) (user_id : String)
    (period : String) (s e : Option Date) : Except String (List (String × ℚ)) :=
  let ex := get_expenses rows user_id s e none
  if ex.isEmpty then Except.ok []
  else
    match periodLabeler period with
    | some f => Except.ok (groupSum (ex.map (fun r => (f r.date, r.amount))))
    | none => Except.error ("Period must be one of: day, week, month, year")

/-! ### Aggregation analyses (`analytics_service.py`). -/

/-- Result of `AnalyticsService._category_analysis`: either the no-expense
early return (line 400) or a breakdown with its total. -/
inductive CategoryAnalysisResult where
  | noExpenses
  | ok (breakdown : List (String × ℚ)) (total : ℚ)
deriving DecidableEq, Repr

/-- Embedding of `AnalyticsService._category_analysis` (lines 394-434):
fetch the category breakdown; on an empty breakdown return the no-expense
result; otherwise, when a (truthy) category filter is present, keep only the
requested categories THAT OCCUR in the data (`if cat in category_spending`),
and total the kept values. -/
def category_analysis (rows : List ExpenseRow) (user_id : String)
    (s e : Option Date) (categories : Option (List String)) : CategoryAnalysisResult :=
  let cs := get_spending_by_category rows user_id s e
  if cs.isEmpty then CategoryAnalysisResult.noExpenses
  else
    let cs2 := match categories with
      | some (c0 :: rest) =>
        ((c0 :: rest).filter (fun c => (cs.lookup c).isSome)).map
          (fun c => (c, lookupD cs c 0))
      | _ => cs
    CategoryAnalysisResult.ok cs2 (cs2.foldl (fun a p => a + p.2) 0)

/-- The data payload of `AnalyticsService._total_spending_analysis`. -/
structure TotalAnalysisData where
  total_amount : ℚ
  transaction_count : Nat
  average_per_transaction : ℚ
deriving DecidableEq, Repr

/-- Embedding of `AnalyticsService._total_spending_analysis` (lines 538-576):
with a (truthy) category filter, total the requested categories from the
breakdown and keep the case-insensitively matching rows; otherwise use the
store's grand total and all filtered rows.  The per-transaction average is
`total / len(expenses) if expenses else 0` — the division is only evaluated
on a non-empty row list. -/
def total_spending_analysis (rows : List ExpenseRow) (user_id : String)
    (s e : Option Date) (categories : Option (List String)) :
    Except String TotalAnalysisData :=
  let p :=
    match categories with
    | some (c0 :: rest) =>
      let cs := get_spending_by_category rows user_id s e
      let cats := c0 :: rest
      let total := cats.foldl (fun a c => a + lookupD cs c 0) 0
      let ex := get_expenses rows user_id s e none
      let exf := ex.filter
        (fun (r : ExpenseRow) => (cats.map lowerChars).contains (lowerChars r.category))
      (total, exf)
    | _ => (get_total_spending rows user_id s e, get_expenses rows user_id s e none)
  match (if p.2.isEmpty then Except.ok 0 else pyDiv p.1 (p.2.length : ℚ)) with
  | Except.error m => Except.error m
  | Except.ok avg => Except.ok ⟨p.1, p.2.length, avg⟩

/-- One entry of the interpreted intent's `time_periods` list.  The Python
dict carries ISO strings decoded by `_parse_date` (invalid strings become
`None`); the embedding carries the decoded bounds directly. -/
structure TimePeriod where
  label : String
  start_date : Option Date
  end_date : Option Date
deriving DecidableEq, Repr

/-- Result of the period/trend analyses: either the no-expense early return
or the period buckets with their average (and, for daily trends with at
least 7 buckets, the trailing 7-bucket moving average series). -/
inductive PeriodAnalysisResult where
  | noExpenses
  | buckets (breakdown : List (String × ℚ)) (avg : ℚ) (movingAvg : Option (List ℚ))
deriving DecidableEq, Repr

/-- Shared tail of the three fixed-granularity period analyses: no-expense
early return, otherwise buckets with their average. -/
def bucketsResult (bs : List (String × ℚ)) : Except String PeriodAnalysisResult :=
  if bs.isEmpty then Except.ok PeriodAnalysisResult.noExpenses
  else
    match pyDiv (bs.foldl (fun a p => a + p.2) 0) (bs.length : ℚ) with
    | Except.error m => Except.error m
    | Except.ok avg => Except.ok (PeriodAnalysisResult.buckets bs avg none)

/-- Embedding of `AnalyticsService._monthly_analysis` (lines 436-468). -/
def monthly_analysis (rows : List ExpenseRow) (user_id : String)
    (s e : Option Date) : Except String PeriodAnalysisResult :=
  match get_spending_by_time_period rows user_id "month" s e with
  | Except.error m => Except.error m
  | Except.ok ms => bucketsResult ms

/-- Embedding of `AnalyticsService._weekly_analysis` (lines 470-502). -/
def weekly_analysis (rows : List ExpenseRow) (user_id : String)
    (s e : Option Date) : Except String PeriodAnalysisResult :=
  match get_spending_by_time_period rows user_id "week" s e with
  | Except.error m => Except.error m
  | Except.ok ws => bucketsResult ws

/-- Embedding of `AnalyticsService._yearly_analysis` (lines 504-536). -/
def yearly_analysis (rows : List ExpenseRow) (user_id : String)
    (s e : Option Date) : Except String PeriodAnalysisResult :=
  match get_spending_by_time_period rows user_id "year" s e with
  | Except.error m => Except.error m
  | Except.ok ys => bucketsResult ys

/-- Embedding of `AnalyticsService._trend_analysis` (lines 578-629): bucket
at the requested granularity; for daily granularity with at least 7 buckets
additionally compute the trailing 7-bucket moving average aligned to the
7th bucket onward. -/
def trend_analysis (rows : List ExpenseRow) (user_id : String)
    (s e : Option Date) (granularity : String) : Except String PeriodAnalysisResult :=
  match get_spending_by_time_period rows user_id granularity s e with
  | Except.error m => Except.error m
  | Except.ok sd =>
    if sd.isEmpty then Except.ok PeriodAnalysisResult.noExpenses
    else
      let amounts := sd.map (fun p => p.2)
      let ma : Option (List ℚ) :=
        if granularity == "day" && decide (7 ≤ amounts.length) then
          some ((List.range amounts.length).filterMap (fun i =>
            if 6 ≤ i then
              some ((((amounts.drop (i - 6)).take 7).foldl (fun a x => a + x) 0) / 7)
            else none))
        else none
      match pyDiv (amounts.foldl (fun a x => a + x) 0) (amounts.length : ℚ) with
      | Except.error m => Except.error m
      | Except.ok avg => Except.ok (PeriodAnalysisResult.buckets sd avg ma)

/-- The date window taken from the first time period, `(None, None)` when
the (falsy) period list is empty — the pattern shared by the
`_handle_*_analysis` routers. -/
def firstWindow (time_periods : List TimePeriod) : Option Date × Option Date :=
  match time_periods with
  | [] => (none, none)
  | p :: _ => (p.start_date, p.end_date)

/-- Embedding of `AnalyticsService._handle_period_analysis` (lines 107-126):
a MISSING granularity defaults to "month"; the first time period supplies the
window; granularities "month"/"week"/"year" route to their analyses and any
other value — "day" included — routes to the trend analysis carrying the
value unchanged. -/
def handle_period_analysis (rows : List ExpenseRow) (user_id : String)
    (granularity : Option String) (time_periods : List TimePeriod) :
    Except String PeriodAnalysisResult :=
  let g := granularity.getD "month"
  let p := firstWindow time_periods
  if g == "month" then monthly_analysis rows user_id p.1 p.2
  else if g == "week" then weekly_analysis rows user_id p.1 p.2
  else if g == "year" then yearly_analysis rows user_id p.1 p.2
  else trend_analysis rows user_id p.1 p.2 g

/-- One period entry of `AnalyticsService._compare_categories_over_time`. -/
structure PeriodCategories where
  period : String
  categories : List (String × ℚ)
deriving DecidableEq, Repr

/-- Embedding of the data computation of
`AnalyticsService._compare_categories_over_time` (lines 181-214): per time
window take the category breakdown and, when a (truthy) category filter is
present, rebuild it as `{cat: spending.get(cat, 0) for cat in categories}` —
every requested category is kept, absent ones with amount 0, with no check
against the category enum. -/
def compare_categories_over_time (rows : List ExpenseRow) (user_id : String)
    (time_periods : List TimePeriod) (categories : Option (List String)) :
    List PeriodCategories :=
  time_periods.map (fun p =>
    let cs := get_spending_by_category rows user_id p.start_date p.end_date
    let cs2 := match categories with
      | some (c0 :: rest) => (c0 :: rest).map (fun c => (c, lookupD cs c 0))
      | _ => cs
    ⟨p.label, cs2⟩)

/-! ### Comparison insights (`analytics_service.py`, lines 289-343). -/

/-- One entry of the `period_data` list built by
`AnalyticsService._compare_time_periods` (lines 154-162), the input of
`_generate_comparison_insights`.  All dictionary fields are kept, since the
source compares whole dictionaries (`max_period != min_period`). -/
structure PeriodData where
  label : String
  start_date : Option String
  end_date : Option String
  total_spending : ℚ
  transaction_count : Nat
  average_per_transaction : ℚ
  category_breakdown : Option (List (String × ℚ))
deriving DecidableEq, Repr

/-- Insights of `_generate_comparison_insights`, modelled structurally (the
source renders them as formatted strings carrying the same numbers). -/
inductive Insight where
  | increased (diff pc : ℚ)
  | decreased (diff pc : ℚ)
  | same
  | highest (label : String) (total : ℚ)
  | lowest (label : String) (total : ℚ)
deriving DecidableEq, Repr

/-- Python `max(items, key=f)` on `acc :: rest`: strictly greater keys
replace the running maximum, so the FIRST maximal element wins. -/
def pyMaxBy {α : Type} (f : α → ℚ) (acc : α) : List α → α
  | [] => acc
  | x :: xs => pyMaxBy f (if f x > f acc then x else acc) xs

/-- Python `min(items, key=f)` on `acc :: rest`: strictly smaller keys
replace the running minimum, so the FIRST minimal element wins. -/
def pyMinBy {α : Type} (f : α → ℚ) (acc : α) : List α → α
  | [] => acc
  | x :: xs => pyMinBy f (if f x < f acc then x else acc) xs

/-- Embedding of `AnalyticsService._generate_comparison_insights`
(lines 289-317): with fewer than two periods no insights; otherwise the
change between the first two totals (percentage 0 unless the baseline is
positive; decreases reported as absolute values), then — only when the
maximal and minimal period dictionaries differ — the highest and lowest
periods as returned by Python `max`/`min`. -/
def generate_comparison_insights (ps : List PeriodData) : List Insight :=
  match ps with
  | p0 :: p1 :: rest =>
    let d := p1.total_spending - p0.total_spending
    let pc := if p0.total_spending > 0 then d / p0.total_spending * 100 else 0
    let changes :=
      if d > 0 then [Insight.increased d pc]
      else if d < 0 then [Insight.decreased (abs d) (abs pc)]
      else [Insight.same]
    let mx := pyMaxBy PeriodData.total_spending p0 (p1 :: rest)
    let mn := pyMinBy PeriodData.total_spending p0 (p1 :: rest)
    changes ++
      (if mx ≠ mn then
        [Insight.highest mx.label mx.total_spending,
         Insight.lowest mn.label mn.total_spending]
      else [])
  | _ => []

/-- Category-comparison insights of
`_generate_category_comparison_insights`, modelled structurally. -/
inductive CatInsight where
  | increased (category : String) (pc : ℚ)
  | decreased (category : String) (pc : ℚ)
deriving DecidableEq, Repr

/-- The union of category names over all periods
(`all_categories.update(...)` in the source; a Python set, so only
membership is meaningful — the embedding keeps first-appearance order). -/
def categoriesUnion (cd : List PeriodCategories) : List String :=
  (cd.foldl (fun acc p => acc ++ p.categories.map (fun q => q.1)) []).dedup

/-- The per-category body of `_generate_category_comparison_insights`
(lines 331-341): with at least two periods and a positive baseline amount,
divide to get the percent change and flag it when its magnitude exceeds 20;
a non-positive baseline is skipped without dividing. -/
def catInsightFor (cd : List PeriodCategories) (cat : String) :
    Except String (List CatInsight) :=
  let amounts := cd.map (fun p => lookupD p.categories cat 0)
  match amounts with
  | a0 :: a1 :: _ =>
    if a0 > 0 then
      match pyDiv (a1 - a0) a0 with
      | Except.error m => Except.error m
      | Except.ok q =>
        let pc := q * 100
        if abs pc > 20 then
          Except.ok (if a1 - a0 > 0 then [CatInsight.increased cat pc]
            else [CatInsight.decreased cat (abs pc)])
        else Except.ok []
    else Except.ok []
  | _ => Except.ok []

/-- The category loop of `_generate_category_comparison_insights`: insights
are appended per category; a raised division error would abort the loop. -/
def genCatLoop (cd : List PeriodCategories) :
    List String → List CatInsight → Except String (List CatInsight)
  | [], acc => Except.ok acc
  | cat :: cats, acc =>
    match catInsightFor cd cat with
    | Except.error m => Except.error m
    | Except.ok ins => genCatLoop cd cats (acc ++ ins)

/-- Embedding of `AnalyticsService._generate_category_comparison_insights`
(lines 319-343), with Python division modelled in `Except`. -/
def generate_category_comparison_insights (cd : List PeriodCategories) :
    Except String (List CatInsight) :=
  if cd.length < 2 then Except.ok []
  else genCatLoop cd (categoriesUnion cd) []

/-! ### Raw row-positional store operations (`sheets_service.py`).  The
worksheet is its `get_all_values()` matrix: a list of rows of cell strings,
row 1 (index 0) being the header row.  `update_expense` serializes a
`ParsedExpense` into 13 cells; the serialization is irrelevant to the
claims, so the cell list is taken as the argument. -/

/-- Embedding of `GoogleSheetsService.update_expense` (lines 284-315): the
bounds check rejects only `row_number < 1` and `row_number > len(all_values)`
— the header row 1 passes it — then cells A..M of that row are overwritten. -/
def update_expense (ws : List (List String)) (row_number : Nat)
    (row_data : List String) : Bool × List (List String) :=
  if row_number < 1 || ws.length < row_number then (false, ws)
  else (true, ws.set (row_number - 1) (row_data ++ (ws.getD (row_number - 1) []).drop 13))

/-- Embedding of `GoogleSheetsService.delete_expense` (lines 317-331): rows
`row_number <= 1` (the header included) and rows beyond the sheet are
rejected; otherwise the row is removed, shifting the rows after it up. -/
def delete_expense (ws : List (List String)) (row_number : Nat) :
    Bool × List (List String) :=
  if row_number ≤ 1 || ws.length < row_number then (false, ws)
  else (true, ws.eraseIdx (row_number - 1))

/-- Embedding of `GoogleSheetsService.get_expense_by_row` (lines 333-353):
reject the header row and out-of-range rows; otherwise return the record —
headers zipped with the row's cells — together with its `row_number`. -/
def get_expense_by_row (ws : List (List String)) (row_number : Nat) :
    Option (List (String × String) × Nat) :=
  if row_number ≤ 1 || ws.length < row_number then none
  else some ((ws.getD 0 []).zip (ws.getD (row_number - 1) []), row_number)

/-- C5: the date-window resolver maps "last month" on any January date to
December of the previous year, with both bounds carrying the previous year;
in particular on 2024-01-15 it yields [2023-12-01, 2023-12-31], and the
rule-based fallback's "Last Month" window agrees. -/
theorem last_month_january_rolls_back_year (q : String) (y d : Nat)
    (_hy : 1 ≤ y)
    (hthis : strContains q ("this month") = false)
    (hlast : strContains q ("last month") = true) :
    parse_time_range q ⟨y, 1, d⟩ = (some ⟨y - 1, 12, 1⟩, some ⟨y - 1, 12, 31⟩) ∧
    parse_time_range ("last month") ⟨2024, 1, 15⟩ =
      (some ⟨2023, 12, 1⟩, some ⟨2023, 12, 31⟩) ∧
    fallbackLastMonthStart ⟨y, 1, d⟩ = ⟨y - 1, 12, 1⟩ ∧
    fallbackLastMonthEnd ⟨y, 1, d⟩ = ⟨y - 1, 12, 31⟩ := by
  refine ⟨?_, by decide, ?_, ?_⟩
  · simp [parse_time_range, hthis, hlast]
  · simp [fallbackLastMonthStart, firstOfMonth, Date.pred]
  · simp [fallbackLastMonthEnd, firstOfMonth, Date.pred]

/-- Witness for `last_month_january_rolls_back_year` at query "last month"
on 2024-01-15. -/
theorem last_month_january_rolls_back_year_witness :
    parse_time_range ("last month") ⟨2024, 1, 15⟩ =
      (some ⟨2023, 12, 1⟩, some ⟨2023, 12, 31⟩) :=
  (last_month_january_rolls_back_year ("last month") 2024 15 (by decide)
    (by decide) (by decide)).2.1

/-- C1 counterexample: a model reply that is valid JSON but misses the
required fields is returned as-is by `parse_analytics_query`, not replaced
by the rule-based fallback intent — the reply text consisting of an empty
JSON object yields an intent with no `analysis_type` field at all, while
the fallback intent always carries one. -/
theorem incomplete_json_not_replaced_by_fallback :
    parse_analytics_query (some ("\x7b\x7d")) ("show spending") ⟨2024, 1, 15⟩ = Json.obj [] ∧
    Json.getField (Json.obj []) ("analysis_type") = none ∧
    Json.getField (fallback_query_parsing ("show spending") ⟨2024, 1, 15⟩) ("analysis_type")
      = some (Json.str ("category_breakdown")) ∧
    parse_analytics_query (some ("\x7b\x7d")) ("show spending") ⟨2024, 1, 15⟩ ≠
      fallback_query_parsing ("show spending") ⟨2024, 1, 15⟩ := by
  refine ⟨rfl, rfl, rfl, ?_⟩
  intro h
  have h2 : (none : Option Json) = some (Json.str ("category_breakdown")) :=
    congrArg (fun j => Json.getField j ("analysis_type")) h
  exact Option.noConfusion h2

/-- C1 amended: the interpreter falls back to the deterministic rule-based
intent exactly when the model call fails or the (cleaned) reply does not
parse as JSON; a reply that parses as JSON is returned unchanged, without
any required-field validation, and the interpreter itself never raises
(it is a total function of the reply). -/
theorem parse_analytics_query_fallback_policy (q t : String) (d : Date) :
    parse_analytics_query none q d = fallback_query_parsing q d ∧
    (jsonLoads (cleanAnalyticsReply t) = none →
      parse_analytics_query (some t) q d = fallback_query_parsing q d) ∧
    (∀ j, jsonLoads (cleanAnalyticsReply t) = some j →
      parse_analytics_query (some t) q d = j) := by
  refine ⟨rfl, fun h => ?_, fun j h => ?_⟩
  · simp [parse_analytics_query, h]
  · simp [parse_analytics_query, h]

/-- Witness for `parse_analytics_query_fallback_policy`: a non-JSON reply on
a concrete query produces the fallback intent. -/
theorem parse_analytics_query_fallback_policy_witness :
    parse_analytics_query (some ("not json")) ("q") ⟨2024, 1, 15⟩ =
      fallback_query_parsing ("q") ⟨2024, 1, 15⟩ :=
  (parse_analytics_query_fallback_policy ("q") ("not json") ⟨2024, 1, 15⟩).2.1 (by rfl)

/-- Helper: summing dictionary lookups over the empty dictionary stays at the
initial accumulator. -/
theorem foldl_add_lookupD_nil (cats : List String) (init : ℚ) :
    cats.foldl (fun a c => a + lookupD [] c 0) init = init := by
  induction cats generalizing init with
  | nil => rfl
  | cons c cs ih => simp [lookupD, ih]

/-- Helper: the guarded average step of `_total_spending_analysis` never
produces a division error. -/
theorem avgStep_ok (total : ℚ) (ex : List ExpenseRow) :
    ∃ a, (if ex.isEmpty then Except.ok 0 else pyDiv total (ex.length : ℚ)) =
      Except.ok (ε := String) a := by
  by_cases hp : ex.isEmpty
  · exact ⟨0, by simp [hp]⟩
  · have hl : ex.length ≠ 0 := by
      cases ex with
      | nil => simp at hp
      | cons a l => simp
    have hq : ((ex.length : ℚ)) ≠ 0 := Nat.cast_ne_zero.mpr hl
    exact ⟨total / ex.length, by simp [hp, pyDiv, hq]⟩

/-- C7: the total-spending analysis never raises a division error (the
zero-count case is guarded), and over an empty matching row set it returns
total 0, transaction count 0 and average 0 — for any category filter. -/
theorem total_spending_analysis_empty_safe (rows : List ExpenseRow) (u : String)
    (s e : Option Date) (cats : Option (List String)) :
    (∃ r, total_spending_analysis rows u s e cats = Except.ok r) ∧
    (get_expenses rows u s e none = [] →
      total_spending_analysis rows u s e cats = Except.ok ⟨0, 0, 0⟩) := by
  constructor
  · cases cats with
    | none =>
      obtain ⟨a, ha⟩ := avgStep_ok (get_total_spending rows u s e)
        (get_expenses rows u s e none)
      refine ⟨⟨get_total_spending rows u s e,
        (get_expenses rows u s e none).length, a⟩, ?_⟩
      simp only [total_spending_analysis]
      rw [ha]
    | some l =>
      cases l with
      | nil =>
        obtain ⟨a, ha⟩ := avgStep_ok (get_total_spending rows u s e)
          (get_expenses rows u s e none)
        refine ⟨⟨get_total_spending rows u s e,
          (get_expenses rows u s e none).length, a⟩, ?_⟩
        simp only [total_spending_analysis]
        rw [ha]
      | cons c0 rest =>
        obtain ⟨a, ha⟩ := avgStep_ok
          ((c0 :: rest).foldl
            (fun a c => a + lookupD (get_spending_by_category rows u s e) c 0) 0)
          ((get_expenses rows u s e none).filter
            (fun (r : ExpenseRow) =>
              ((c0 :: rest).map lowerChars).contains (lowerChars r.category)))
        refine ⟨⟨(c0 :: rest).foldl
            (fun a c => a + lookupD (get_spending_by_category rows u s e) c 0) 0,
          ((get_expenses rows u s e none).filter
            (fun (r : ExpenseRow) =>
              ((c0 :: rest).map lowerChars).contains (lowerChars r.category))).length,
          a⟩, ?_⟩
        simp only [total_spending_analysis]
        rw [ha]
  · intro h
    have hcs : get_spending_by_category rows u s e = [] := by
      simp [get_spending_by_category, h, groupSum, sortKeys]
    cases cats with
    | none => simp [total_spending_analysis, h, get_total_spending]
    | some l =>
      cases l with
      | nil => simp [total_spending_analysis, h, get_total_spending]
      | cons c0 rest =>
        simp [total_spending_analysis, h, hcs, foldl_add_lookupD_nil, lookupD]

/-- Witness for `total_spending_analysis_empty_safe`: a user with no stored
rows gets total 0, count 0, average 0. -/
theorem total_spending_analysis_empty_safe_witness :
    total_spending_analysis [⟨"u", ⟨2024, 1, 10⟩, 5, "food"⟩] "nobody" none none none =
      Except.ok ⟨0, 0, 0⟩ :=
  (total_spending_analysis_empty_safe [⟨"u", ⟨2024, 1, 10⟩, 5, "food"⟩]
    "nobody" none none none).2 (by decide)

/-- C4 counterexample: a category-breakdown request whose filter names a
category absent from the stored data returns a breakdown that OMITS the
category instead of listing it with amount 0 — the only stored row is
"transportation", the filter requests "food", and the returned breakdown is
empty rather than containing ("food", 0). -/
theorem absent_category_omitted_counterexample :
    category_analysis [⟨"u", ⟨2024, 1, 10⟩, 5, "transportation"⟩] "u" none none
      (some ["food"]) = CategoryAnalysisResult.ok [] 0 := by decide

/-- C4 amended: in a category-breakdown analysis with a non-empty category
filter, requested categories absent from the stored data are dropped from
the returned breakdown (they do not appear with amount 0), requested
categories present in the data appear with their stored sums, and the
request never errors because of an absent category. -/
theorem category_filter_keeps_only_present (rows : List ExpenseRow) (u : String)
    (s e : Option Date) (c0 : String) (cats : List String)
    (h : ¬ (get_spending_by_category rows u s e).isEmpty = true) :
    ∃ bd total, category_analysis rows u s e (some (c0 :: cats)) =
        CategoryAnalysisResult.ok bd total ∧
      (∀ c, c ∈ c0 :: cats → (get_spending_by_category rows u s e).lookup c = none →
        ∀ q, (c, q) ∉ bd) ∧
      (∀ c v, c ∈ c0 :: cats → (get_spending_by_category rows u s e).lookup c = some v →
        (c, v) ∈ bd) := by
  refine ⟨((c0 :: cats).filter
      (fun c => ((get_spending_by_category rows u s e).lookup c).isSome)).map
      (fun c => (c, lookupD (get_spending_by_category rows u s e) c 0)),
    (((c0 :: cats).filter
      (fun c => ((get_spending_by_category rows u s e).lookup c).isSome)).map
      (fun c => (c, lookupD (get_spending_by_category rows u s e) c 0))).foldl
      (fun a p => a + p.2) 0, ?_, ?_, ?_⟩
  · simp [category_analysis, h]
  · intro c hc hnone q hq
    rw [List.mem_map] at hq
    obtain ⟨c', hc', heq⟩ := hq
    rw [List.mem_filter] at hc'
    have hcc : c' = c := congrArg Prod.fst heq
    rw [hcc, hnone] at hc'
    simp at hc'
  · intro c v hc hv
    rw [List.mem_map]
    refine ⟨c, ?_, ?_⟩
    · rw [List.mem_filter]
      exact ⟨hc, by simp [hv]⟩
    · simp [lookupD, hv]

/-- Witness for `category_filter_keeps_only_present`: data holding only a
"food" row, filter requesting "food" and "banana". -/
theorem category_filter_keeps_only_present_witness :
    ∃ bd total, category_analysis [⟨"u", ⟨2024, 1, 10⟩, 7, "food"⟩] "u" none none
        (some ["food", "banana"]) = CategoryAnalysisResult.ok bd total ∧
      (∀ c, c ∈ ["food", "banana"] →
        (get_spending_by_category [⟨"u", ⟨2024, 1, 10⟩, 7, "food"⟩] "u" none none).lookup c
          = none → ∀ q, (c, q) ∉ bd) ∧
      (∀ c v, c ∈ ["food", "banana"] →
        (get_spending_by_category [⟨"u", ⟨2024, 1, 10⟩, 7, "food"⟩] "u" none none).lookup c
          = some v → (c, v) ∈ bd) :=
  category_filter_keeps_only_present [⟨"u", ⟨2024, 1, 10⟩, 7, "food"⟩] "u" none none
    "food" ["banana"] (by decide)

/-- C2 counterexample: a granularity value outside {day, week, month, year}
is NOT replaced by the default "month" — on a non-empty row set, the intent
granularity "quarter" reaches the aggregation layer's error branch; and a
category value outside the closed enum ("banana") is NOT dropped from the
category filter — the categories-over-time comparison keeps it (amount 0). -/
theorem invalid_granularity_reaches_error_branch :
    handle_period_analysis [⟨"u", ⟨2024, 1, 10⟩, 5, "food"⟩] "u" (some "quarter") [] =
      Except.error ("Period must be one of: day, week, month, year") ∧
    compare_categories_over_time [⟨"u", ⟨2024, 1, 10⟩, 5, "food"⟩] "u"
      [⟨"all time", none, none⟩] (some ["banana"]) =
      [⟨"all time", [("banana", 0)]⟩] := by
  constructor
  · rfl
  · rfl

/-- C10: the header row (row 1) is protected from reads and deletes but not
from updates — `get_expense_by_row 1` is `None`, `delete_expense 1` returns
`False` and leaves the sheet unchanged, yet `update_expense 1` passes the
bounds check (it only rejects `row_number < 1`) and overwrites the header
cells with the expense data, returning `True`. -/
theorem header_row_update_unprotected (ws : List (List String)) (cells : List String)
    (h : 1 ≤ ws.length) :
    get_expense_by_row ws 1 = none ∧
    delete_expense ws 1 = (false, ws) ∧
    update_expense ws 1 cells =
      (true, ws.set 0 (cells ++ (ws.getD 0 []).drop 13)) := by
  have h1 : ¬ (ws.length < 1) := by omega
  exact ⟨by simp [get_expense_by_row], by simp [delete_expense],
    by simp [update_expense, h1]⟩

/-- Witness for `header_row_update_unprotected`: a one-row sheet whose header
is overwritten by the expense cells. -/
theorem header_row_update_unprotected_witness :
    get_expense_by_row [["Timestamp", "Date"]] 1 = none ∧
    delete_expense [["Timestamp", "Date"]] 1 = (false, [["Timestamp", "Date"]]) ∧
    update_expense [["Timestamp", "Date"]] 1 ["x"] =
      (true, [["Timestamp", "Date"]].set 0 (["x"] ++ ([["Timestamp", "Date"]].getD 0 []).drop 13)) :=
  header_row_update_unprotected [["Timestamp", "Date"]] ["x"] (by decide)

/-- C6: for any comparison of two or more windows, the first reported
insight is exactly the change between the first two totals — the exact
difference, and the exact percentage of the baseline, defined as 0 when the
baseline total is not positive; decreases are reported in absolute value.
Concretely, totals [100, 150] report an increase of 50 and 50 percent, and
totals [100, 100] produce the remained-the-same insight. -/
theorem comparison_change_exact (p0 p1 : PeriodData) (rest : List PeriodData) :
    (generate_comparison_insights (p0 :: p1 :: rest)).head? =
      some (
        if p1.total_spending - p0.total_spending > 0 then
          Insight.increased (p1.total_spending - p0.total_spending)
            (if p0.total_spending > 0 then
              (p1.total_spending - p0.total_spending) / p0.total_spending * 100 else 0)
        else if p1.total_spending - p0.total_spending < 0 then
          Insight.decreased (abs (p1.total_spending - p0.total_spending))
            (abs (if p0.total_spending > 0 then
              (p1.total_spending - p0.total_spending) / p0.total_spending * 100 else 0))
        else Insight.same) ∧
    generate_comparison_insights
      [⟨"A", none, none, 100, 1, 100, none⟩, ⟨"B", none, none, 150, 1, 150, none⟩] =
      [Insight.increased 50 50, Insight.highest "B" 150, Insight.lowest "A" 100] ∧
    generate_comparison_insights
      [⟨"A", none, none, 100, 1, 100, none⟩, ⟨"B", none, none, 100, 1, 100, none⟩] =
      [Insight.same] := by
  refine ⟨?_, by norm_num [generate_comparison_insights, pyMaxBy, pyMinBy],
    by norm_num [generate_comparison_insights, pyMaxBy, pyMinBy]⟩
  simp only [generate_comparison_insights]
  by_cases h1 : p1.total_spending - p0.total_spending > 0
  · simp [h1]
  · by_cases h2 : p1.total_spending - p0.total_spending < 0
    · simp [h1, h2]
    · simp [h1, h2]

/-- C3 counterexample: two windows tying on total produce NO highest/lowest
identification at all (the max and min dictionaries coincide, so the source
skips both insights), and with three windows where the first two tie on the
maximal total, the "highest" insight names the EARLIEST-declared window P1,
not the latest-declared P2. -/
theorem tie_break_counterexample :
    generate_comparison_insights
      [⟨"P1", none, none, 100, 1, 100, none⟩, ⟨"P2", none, none, 100, 1, 100, none⟩] =
      [Insight.same] ∧
    generate_comparison_insights
      [⟨"P1", none, none, 5, 1, 5, none⟩, ⟨"P2", none, none, 5, 1, 5, none⟩,
       ⟨"P3", none, none, 3, 1, 3, none⟩] =
      [Insight.same, Insight.highest "P1" 5, Insight.lowest "P3" 3] ∧
    Insight.highest "P2" 5 ∉ generate_comparison_insights
      [⟨"P1", none, none, 5, 1, 5, none⟩, ⟨"P2", none, none, 5, 1, 5, none⟩,
       ⟨"P3", none, none, 3, 1, 3, none⟩] := by
  have hB : generate_comparison_insights
      [⟨"P1", none, none, 5, 1, 5, none⟩, ⟨"P2", none, none, 5, 1, 5, none⟩,
       ⟨"P3", none, none, 3, 1, 3, none⟩] =
      [Insight.same, Insight.highest "P1" 5, Insight.lowest "P3" 3] := by
    norm_num [generate_comparison_insights, pyMaxBy, pyMinBy]
  refine ⟨by norm_num [generate_comparison_insights, pyMaxBy, pyMinBy], hB, ?_⟩
  rw [hB]
  simp

/-- Helper: Python `max(key=f)` over `a :: l` returns the EARLIEST maximal
element — everything declared before it is strictly smaller, everything
after it is no larger. -/
theorem pyMaxBy_split {α : Type} (f : α → ℚ) (a : α) (l : List α) :
    ∃ u v, a :: l = u ++ pyMaxBy f a l :: v ∧
      (∀ y ∈ u, f y < f (pyMaxBy f a l)) ∧
      (∀ y ∈ v, f y ≤ f (pyMaxBy f a l)) := by
  induction l generalizing a with
  | nil => exact ⟨[], [], by simp [pyMaxBy], by simp, by simp⟩
  | cons x xs ih =>
    by_cases hx : f x > f a
    · have hred : pyMaxBy f a (x :: xs) = pyMaxBy f x xs := by
        simp [pyMaxBy, hx]
      obtain ⟨u, v, hsplit, hu, hv⟩ := ih x
      have hxle : f x ≤ f (pyMaxBy f x xs) := by
        cases u with
        | nil =>
          simp only [List.nil_append] at hsplit
          injection hsplit with h1 h2
          rw [← h1]
        | cons u0 us =>
          simp only [List.cons_append] at hsplit
          injection hsplit with h1 h2
          have hlt := hu u0 (by simp)
          rw [← h1] at hlt
          exact le_of_lt hlt
      refine ⟨a :: u, v, ?_, ?_, fun y hy => by rw [hred]; exact hv y hy⟩
      · rw [hred, List.cons_append, ← hsplit]
      · intro y hy
        rw [hred]
        rcases List.mem_cons.mp hy with h | h
        · rw [h]; exact lt_of_lt_of_le hx hxle
        · exact hu y h
    · have hred : pyMaxBy f a (x :: xs) = pyMaxBy f a xs := by
        simp [pyMaxBy, hx]
      have hxa : f x ≤ f a := le_of_not_lt hx
      obtain ⟨u, v, hsplit, hu, hv⟩ := ih a
      cases u with
      | nil =>
        simp only [List.nil_append] at hsplit
        injection hsplit with h1 h2
        refine ⟨[], x :: v, ?_, by simp, ?_⟩
        · rw [hred, List.nil_append, ← h1, h2]
        · intro y hy
          rw [hred]
          rcases List.mem_cons.mp hy with h | h
          · rw [h, ← h1]; exact hxa
          · exact hv y h
      | cons u0 us =>
        simp only [List.cons_append] at hsplit
        injection hsplit with h1 h2
        refine ⟨a :: x :: us, v, ?_, ?_,
          fun y hy => by rw [hred]; exact hv y hy⟩
        · rw [hred, List.cons_append, List.cons_append, ← h2]
        · intro y hy
          rw [hred]
          have hma := hu u0 (by simp)
          rw [← h1] at hma
          rcases List.mem_cons.mp hy with h | h
          · rw [h]; exact hma
          · rcases List.mem_cons.mp h with h3 | h3
            · rw [h3]; exact lt_of_le_of_lt hxa hma
            · exact hu y (List.mem_cons_of_mem _ h3)

/-- Helper: Python `min(key=f)` is `max` for the negated key. -/
theorem pyMinBy_eq_pyMaxBy_neg {α : Type} (f : α → ℚ) (a : α) (l : List α) :
    pyMinBy f a l = pyMaxBy (fun z => -(f z)) a l := by
  induction l generalizing a with
  | nil => rfl
  | cons x xs ih =>
    simp only [pyMinBy, pyMaxBy, gt_iff_lt, neg_lt_neg_iff]
    exact ih _

/-- Helper: Python `min(key=f)` over `a :: l` returns the EARLIEST minimal
element — everything declared before it is strictly larger, everything
after it is no smaller. -/
theorem pyMinBy_split {α : Type} (f : α → ℚ) (a : α) (l : List α) :
    ∃ u v, a :: l = u ++ pyMinBy f a l :: v ∧
      (∀ y ∈ u, f (pyMinBy f a l) < f y) ∧
      (∀ y ∈ v, f (pyMinBy f a l) ≤ f y) := by
  rw [pyMinBy_eq_pyMaxBy_neg]
  obtain ⟨u, v, h1, h2, h3⟩ := pyMaxBy_split (fun z => -(f z)) a l
  refine ⟨u, v, h1, fun y hy => ?_, fun y hy => ?_⟩
  · have := h2 y hy
    simp only [neg_lt_neg_iff] at this
    exact this
  · have := h3 y hy
    simp only [neg_le_neg_iff] at this
    exact this

/-- C3 amended: Python `max` and `min` both return the EARLIEST-declared
extremal window (strictly beaten predecessors, no-larger/no-smaller
successors); when the maximal and minimal period dictionaries differ the
highest/lowest insights carry exactly those windows, and when they coincide
(e.g. a two-window tie) no highest/lowest insight is emitted at all. -/
theorem extremal_period_identification (p : PeriodData) (l : List PeriodData) :
    (∃ u v, p :: l = u ++ pyMaxBy PeriodData.total_spending p l :: v ∧
      (∀ q ∈ u, q.total_spending < (pyMaxBy PeriodData.total_spending p l).total_spending) ∧
      (∀ q ∈ v, q.total_spending ≤ (pyMaxBy PeriodData.total_spending p l).total_spending)) ∧
    (∃ u v, p :: l = u ++ pyMinBy PeriodData.total_spending p l :: v ∧
      (∀ q ∈ u, (pyMinBy PeriodData.total_spending p l).total_spending < q.total_spending) ∧
      (∀ q ∈ v, (pyMinBy PeriodData.total_spending p l).total_spending ≤ q.total_spending)) ∧
    (∀ p1 r, l = p1 :: r →
      (pyMaxBy PeriodData.total_spending p l ≠ pyMinBy PeriodData.total_spending p l →
        Insight.highest (pyMaxBy PeriodData.total_spending p l).label
            (pyMaxBy PeriodData.total_spending p l).total_spending ∈
          generate_comparison_insights (p :: l) ∧
        Insight.lowest (pyMinBy PeriodData.total_spending p l).label
            (pyMinBy PeriodData.total_spending p l).total_spending ∈
          generate_comparison_insights (p :: l)) ∧
      (pyMaxBy PeriodData.total_spending p l = pyMinBy PeriodData.total_spending p l →
        ∀ lab t, Insight.highest lab t ∉ generate_comparison_insights (p :: l) ∧
          Insight.lowest lab t ∉ generate_comparison_insights (p :: l))) := by
  refine ⟨pyMaxBy_split _ p l, pyMinBy_split _ p l, ?_⟩
  intro p1 r hl
  subst hl
  constructor
  · intro hne
    simp only [generate_comparison_insights]
    rw [if_pos hne]
    constructor <;> simp [List.mem_append]
  · intro heq lab t
    simp only [generate_comparison_insights]
    have hne2 : ¬ (pyMaxBy PeriodData.total_spending p (p1 :: r) ≠
        pyMinBy PeriodData.total_spending p (p1 :: r)) := fun h => h heq
    rw [if_neg hne2, List.append_nil]
    constructor <;> (split_ifs <;> simp)

/-- Witness for `extremal_period_identification` on three concrete windows
whose first two tie on the maximal total. -/
theorem extremal_period_identification_witness :
    Insight.highest
        (pyMaxBy PeriodData.total_spending ⟨"P1", none, none, 5, 1, 5, none⟩
          [⟨"P2", none, none, 5, 1, 5, none⟩, ⟨"P3", none, none, 3, 1, 3, none⟩]).label
        (pyMaxBy PeriodData.total_spending ⟨"P1", none, none, 5, 1, 5, none⟩
          [⟨"P2", none, none, 5, 1, 5, none⟩,
           ⟨"P3", none, none, 3, 1, 3, none⟩]).total_spending ∈
      generate_comparison_insights
        [⟨"P1", none, none, 5, 1, 5, none⟩, ⟨"P2", none, none, 5, 1, 5, none⟩,
         ⟨"P3", none, none, 3, 1, 3, none⟩] ∧
    Insight.lowest
        (pyMinBy PeriodData.total_spending ⟨"P1", none, none, 5, 1, 5, none⟩
          [⟨"P2", none, none, 5, 1, 5, none⟩, ⟨"P3", none, none, 3, 1, 3, none⟩]).label
        (pyMinBy PeriodData.total_spending ⟨"P1", none, none, 5, 1, 5, none⟩
          [⟨"P2", none, none, 5, 1, 5, none⟩,
           ⟨"P3", none, none, 3, 1, 3, none⟩]).total_spending ∈
      generate_comparison_insights
        [⟨"P1", none, none, 5, 1, 5, none⟩, ⟨"P2", none, none, 5, 1, 5, none⟩,
         ⟨"P3", none, none, 3, 1, 3, none⟩] :=
  ((extremal_period_identification ⟨"P1", none, none, 5, 1, 5, none⟩
      [⟨"P2", none, none, 5, 1, 5, none⟩, ⟨"P3", none, none, 3, 1, 3, none⟩]).2.2
    ⟨"P2", none, none, 5, 1, 5, none⟩ [⟨"P3", none, none, 3, 1, 3, none⟩] rfl).1
    (by norm_num [pyMaxBy, pyMinBy])

/-- Helper: the per-category insight computation never raises — the division
is guarded by the positive-baseline test, so a category whose baseline
amount is 0 (or negative) is skipped without dividing. -/
theorem catInsightFor_ok (cd : List PeriodCategories) (cat : String) :
    ∃ ins, catInsightFor cd cat = Except.ok ins := by
  unfold catInsightFor
  generalize cd.map (fun p => lookupD p.categories cat 0) = amounts
  match amounts with
  | [] => exact ⟨[], rfl⟩
  | [a0] => exact ⟨[], rfl⟩
  | a0 :: a1 :: t =>
    by_cases h0 : a0 > 0
    · have hne : a0 ≠ 0 := ne_of_gt h0
      by_cases habs : abs ((a1 - a0) / a0 * 100) > 20
      · by_cases hs : a1 - a0 > 0
        · exact ⟨[CatInsight.increased cat ((a1 - a0) / a0 * 100)],
            by simp [h0, pyDiv, hne, habs, hs]⟩
        · exact ⟨[CatInsight.decreased cat (abs ((a1 - a0) / a0 * 100))],
            by simp [h0, pyDiv, hne, habs, hs]⟩
      · exact ⟨[], by simp [h0, pyDiv, hne, habs]⟩
    · exact ⟨[], by simp [h0]⟩

/-- Helper: the category loop of the insight generation succeeds and its
result collects every per-category emission. -/
theorem genCatLoop_mem (cd : List PeriodCategories) (cats : List String)
    (acc : List CatInsight) :
    ∃ r, genCatLoop cd cats acc = Except.ok r ∧
      (∀ x ∈ acc, x ∈ r) ∧
      (∀ cat ∈ cats, ∀ ins, catInsightFor cd cat = Except.ok ins →
        ∀ x ∈ ins, x ∈ r) := by
  induction cats generalizing acc with
  | nil => exact ⟨acc, rfl, fun x hx => hx, by simp⟩
  | cons c cs ih =>
    obtain ⟨ins, hins⟩ := catInsightFor_ok cd c
    obtain ⟨r, hr, hacc, hmem⟩ := ih (acc ++ ins)
    refine ⟨r, ?_, ?_, ?_⟩
    · simp only [genCatLoop]
      rw [hins]
      exact hr
    · intro x hx
      exact hacc x (List.mem_append_left _ hx)
    · intro cat hcat ins2 hins2 x hx
      rcases List.mem_cons.mp hcat with h | h
      · subst h
        rw [hins] at hins2
        injection hins2 with h2
        subst h2
        exact hacc x (List.mem_append_right _ hx)
      · exact hmem cat h ins2 hins2 x hx

/-- C8: the category-comparison insight generation is total — it never
raises a division error, including for a category whose baseline amount is
0 and whose comparison amount is positive (such a category is skipped by the
positive-baseline guard) — and for every category of the union whose
baseline is positive and whose percent change between the first two periods
exceeds 20 in magnitude, the corresponding significant-change insight is in
the returned list. -/
theorem category_change_flagging_safe :
    (∀ cd : List PeriodCategories, ∃ r,
      generate_category_comparison_insights cd = Except.ok r) ∧
    (∀ (c0 c1 : PeriodCategories) (rest : List PeriodCategories) (cat : String)
      (r : List CatInsight),
      generate_category_comparison_insights (c0 :: c1 :: rest) = Except.ok r →
      cat ∈ categoriesUnion (c0 :: c1 :: rest) →
      0 < lookupD c0.categories cat 0 →
      20 < abs ((lookupD c1.categories cat 0 - lookupD c0.categories cat 0) /
        lookupD c0.categories cat 0 * 100) →
      (if 0 < lookupD c1.categories cat 0 - lookupD c0.categories cat 0 then
        CatInsight.increased cat
          ((lookupD c1.categories cat 0 - lookupD c0.categories cat 0) /
            lookupD c0.categories cat 0 * 100)
      else
        CatInsight.decreased cat
          (abs ((lookupD c1.categories cat 0 - lookupD c0.categories cat 0) /
            lookupD c0.categories cat 0 * 100))) ∈ r) := by
  constructor
  · intro cd
    unfold generate_category_comparison_insights
    by_cases hlen : cd.length < 2
    · exact ⟨[], by simp [hlen]⟩
    · obtain ⟨r, hr, h1, h2⟩ := genCatLoop_mem cd (categoriesUnion cd) []
      exact ⟨r, by simp [hlen, hr]⟩
  · intro c0 c1 rest cat r hr hcat h0 habs
    have hlen : ¬ ((c0 :: c1 :: rest).length < 2) := by simp
    obtain ⟨r2, hr2, hacc, hmem⟩ :=
      genCatLoop_mem (c0 :: c1 :: rest) (categoriesUnion (c0 :: c1 :: rest)) []
    unfold generate_category_comparison_insights at hr
    rw [if_neg hlen, hr2] at hr
    injection hr with hreq
    subst hreq
    have hne : lookupD c0.categories cat 0 ≠ 0 := ne_of_gt h0
    by_cases hs : 0 < lookupD c1.categories cat 0 - lookupD c0.categories cat 0
    · have hfor : catInsightFor (c0 :: c1 :: rest) cat = Except.ok
          [CatInsight.increased cat
            ((lookupD c1.categories cat 0 - lookupD c0.categories cat 0) /
              lookupD c0.categories cat 0 * 100)] := by
        unfold catInsightFor
        simp [h0, pyDiv, hne, habs, hs]
      rw [if_pos hs]
      exact hmem cat hcat _ hfor _ (by simp)
    · have hfor : catInsightFor (c0 :: c1 :: rest) cat = Except.ok
          [CatInsight.decreased cat
            (abs ((lookupD c1.categories cat 0 - lookupD c0.categories cat 0) /
              lookupD c0.categories cat 0 * 100))] := by
        unfold catInsightFor
        simp [h0, pyDiv, hne, habs, hs]
      rw [if_neg hs]
      exact hmem cat hcat _ hfor _ (by simp)

/-- Witness for `category_change_flagging_safe`: a "food" category rising
from 100 to 150 (a 50 percent change) is flagged, and a window pair holding
a baseline-0 "transport" category still yields a successful (error-free)
insight computation. -/
theorem category_change_flagging_safe_witness :
    (∃ r, generate_category_comparison_insights
      [⟨"W1", [("food", 100), ("transport", 0)]⟩,
       ⟨"W2", [("food", 150), ("transport", 50)]⟩] = Except.ok r) ∧
    (if 0 < lookupD (⟨"W2", [("food", (150 : ℚ))]⟩ : PeriodCategories).categories "food" 0 -
        lookupD (⟨"W1", [("food", (100 : ℚ))]⟩ : PeriodCategories).categories "food" 0 then
      CatInsight.increased "food"
        ((lookupD (⟨"W2", [("food", (150 : ℚ))]⟩ : PeriodCategories).categories "food" 0 -
          lookupD (⟨"W1", [("food", (100 : ℚ))]⟩ : PeriodCategories).categories "food" 0) /
          lookupD (⟨"W1", [("food", (100 : ℚ))]⟩ : PeriodCategories).categories "food" 0 * 100)
    else
      CatInsight.decreased "food"
        (abs ((lookupD (⟨"W2", [("food", (150 : ℚ))]⟩ : PeriodCategories).categories "food" 0 -
          lookupD (⟨"W1", [("food", (100 : ℚ))]⟩ : PeriodCategories).categories "food" 0) /
          lookupD (⟨"W1", [("food", (100 : ℚ))]⟩ : PeriodCategories).categories "food" 0 * 100)))
      ∈ [CatInsight.increased "food" 50] :=
  ⟨category_change_flagging_safe.1
      [⟨"W1", [("food", 100), ("transport", 0)]⟩,
       ⟨"W2", [("food", 150), ("transport", 50)]⟩],
   category_change_flagging_safe.2 ⟨"W1", [("food", 100)]⟩ ⟨"W2", [("food", 150)]⟩ []
      "food" [CatInsight.increased "food" 50]
      (by norm_num [generate_category_comparison_insights, genCatLoop, catInsightFor,
        categoriesUnion, lookupD, pyDiv])
      (by norm_num [categoriesUnion, lookupD])
      (by norm_num [lookupD])
      (by norm_num [lookupD])⟩

/-- Helper: erasing a later row leaves an earlier index unchanged. -/
theorem getD_eraseIdx_lt {α : Type} (l : List α) (k i : Nat) (d : α) (h : i < k) :
    (l.eraseIdx k).getD i d = l.getD i d := by
  rw [List.getD_eq_getElem?_getD, List.getD_eq_getElem?_getD, List.getElem?_eraseIdx]
  simp [h]

/-- Helper: erasing an earlier row shifts a later index up by one. -/
theorem getD_eraseIdx_ge {α : Type} (l : List α) (k i : Nat) (d : α) (h : k ≤ i) :
    (l.eraseIdx k).getD i d = l.getD (i + 1) d := by
  rw [List.getD_eq_getElem?_getD, List.getD_eq_getElem?_getD, List.getElem?_eraseIdx]
  simp [Nat.not_lt.mpr h]

/-- C9: deleting a valid data row N shifts every subsequent row's index down
by one — the delete reports success, rows before N read back unchanged,
reading row N afterwards returns the record formerly at row N+1 (same
header-to-cell fields, renumbered to N), and the sheet's old last index
reads back as not-found. -/
theorem delete_row_shifts_indices (ws : List (List String)) (n : Nat)
    (h2 : 2 ≤ n) (hn : n ≤ ws.length) :
    (delete_expense ws n).1 = true ∧
    (∀ m, 2 ≤ m → m < n →
      get_expense_by_row (delete_expense ws n).2 m = get_expense_by_row ws m) ∧
    (n < ws.length →
      get_expense_by_row (delete_expense ws n).2 n =
        (get_expense_by_row ws (n + 1)).map (fun p => (p.1, n))) ∧
    get_expense_by_row (delete_expense ws n).2 ws.length = none := by
  have hn1 : ¬ (n ≤ 1) := by omega
  have hn2 : ¬ (ws.length < n) := by omega
  have hd : delete_expense ws n = (true, ws.eraseIdx (n - 1)) := by
    simp [delete_expense, hn1, hn2]
  have hlen : (ws.eraseIdx (n - 1)).length = ws.length - 1 :=
    List.length_eraseIdx_of_lt (by omega)
  have hget : ∀ (l : List (List String)) (m : Nat), ¬ (m ≤ 1) → ¬ (l.length < m) →
      get_expense_by_row l m = some ((l.getD 0 []).zip (l.getD (m - 1) []), m) := by
    intro l m hm hl
    simp [get_expense_by_row, hm, hl]
  have hnone : ∀ (l : List (List String)) (m : Nat), l.length < m →
      get_expense_by_row l m = none := by
    intro l m hl
    simp [get_expense_by_row, hl]
  refine ⟨by rw [hd], ?_, ?_, ?_⟩
  · intro m hm2 hmn
    rw [hd]
    rw [hget _ m (by omega) (by rw [hlen]; omega), hget _ m (by omega) (by omega)]
    rw [getD_eraseIdx_lt ws (n - 1) 0 [] (by omega),
      getD_eraseIdx_lt ws (n - 1) (m - 1) [] (by omega)]
  · intro hlt
    rw [hd]
    rw [hget _ n (by omega) (by rw [hlen]; omega), hget _ (n + 1) (by omega) (by omega)]
    simp only [Option.map_some']
    rw [getD_eraseIdx_lt ws (n - 1) 0 [] (by omega),
      getD_eraseIdx_ge ws (n - 1) (n - 1) [] (by omega)]
    have e1 : n - 1 + 1 = n := by omega
    have e2 : n + 1 - 1 = n := by omega
    rw [e1, e2]
  · rw [hd]
    exact hnone _ _ (by rw [hlen]; omega)

/-- Witness for `delete_row_shifts_indices`: deleting data row 2 of a
four-row sheet. -/
theorem delete_row_shifts_indices_witness :
    (delete_expense [["H"], ["a"], ["b"], ["c"]] 2).1 = true ∧
    (∀ m, 2 ≤ m → m < 2 →
      get_expense_by_row (delete_expense [["H"], ["a"], ["b"], ["c"]] 2).2 m =
        get_expense_by_row [["H"], ["a"], ["b"], ["c"]] m) ∧
    (2 < ([["H"], ["a"], ["b"], ["c"]] : List (List String)).length →
      get_expense_by_row (delete_expense [["H"], ["a"], ["b"], ["c"]] 2).2 2 =
        (get_expense_by_row [["H"], ["a"], ["b"], ["c"]] 3).map (fun p => (p.1, 2))) ∧
    get_expense_by_row (delete_expense [["H"], ["a"], ["b"], ["c"]] 2).2
      ([["H"], ["a"], ["b"], ["c"]] : List (List String)).length = none :=
  delete_row_shifts_indices [["H"], ["a"], ["b"], ["c"]] 2 (by decide) (by decide)

/-- C2 amended: a MISSING granularity defaults to "month", but an invalid
granularity value is passed through to the aggregation layer unchanged and
reaches its error branch whenever the filtered row set is non-empty; and
requested categories are not checked against the category enum — the
categories-over-time comparison keeps every requested category as a key of
every window's breakdown. -/
theorem granularity_and_category_passthrough (rows : List ExpenseRow)
    (u g : String) (ps : List TimePeriod) :
    (handle_period_analysis rows u none ps =
      handle_period_analysis rows u (some "month") ps) ∧
    (g ≠ "day" → g ≠ "week" → g ≠ "month" → g ≠ "year" →
      get_expenses rows u (firstWindow ps).1 (firstWindow ps).2 none ≠ [] →
      handle_period_analysis rows u (some g) ps =
        Except.error ("Period must be one of: day, week, month, year")) ∧
    (∀ (c0 : String) (crest : List String) (pc : PeriodCategories),
      pc ∈ compare_categories_over_time rows u ps (some (c0 :: crest)) →
      ∀ c ∈ c0 :: crest, ∃ v, (c, v) ∈ pc.categories) := by
  refine ⟨rfl, ?_, ?_⟩
  · intro hd hw hm hy hne
    simp [handle_period_analysis, trend_analysis, get_spending_by_time_period,
      periodLabeler, hd, hw, hm, hy, hne]
  · intro c0 crest pc hpc c hc
    simp only [compare_categories_over_time, List.mem_map] at hpc
    obtain ⟨p, hp, hpe⟩ := hpc
    subst hpe
    exact ⟨lookupD (get_spending_by_category rows u p.start_date p.end_date) c 0,
      List.mem_map.mpr ⟨c, hc, rfl⟩⟩

/-- Witness for `granularity_and_category_passthrough`: the granularity
"quarter", with one stored row, reaches the aggregation error branch. -/
theorem granularity_passthrough_witness :
    handle_period_analysis [⟨"u", ⟨2024, 1, 10⟩, 5, "food"⟩] "u" (some "quarter")
      [] = Except.error ("Period must be one of: day, week, month, year") :=
  (granularity_and_category_passthrough [⟨"u", ⟨2024, 1, 10⟩, 5, "food"⟩]
      "u" "quarter" []).2.1
    (by decide) (by decide) (by decide) (by decide) (by decide)
